import Mathlib

/-!
# Verification of the playground server's route handlers

Shallow embedding of the request handlers in `src/server/routes` (modern
restify API, TypeScript) and `src/server/lib/routes.js` (legacy API).

Modelling conventions:
* The relational store is a list of playground records; the persistence
  engine's primitive operations (`findById`, row update, association
  `$set`, insertion on `create`) are modelled as pure functions on that
  list.  The spec treats the persistence engine as an external
  collaborator; its operations here always succeed, so the managed
  transaction wrapping each write handler always commits and is
  represented by `txBegin` / `txCommit` trace events.
* `res.json(status, body)` is modelled as a first-write-wins response
  cell: the HTTP status line is emitted with the first send, so a later
  send on the same response cannot change what the caller receives.
* Every store-touching or outward-facing action a handler performs is
  recorded in an event trace, in program order.
* JavaScript falsiness of a string (`!s`) is modelled as `s = ""`;
  string `.length` is modelled by `String.length`.
-/

/-- A tag reference as built by `prepareTags` (`new Tag({ id })`). -/
structure Tag where
  id : Int
deriving Repr, DecidableEq

/-- A caller-supplied tag entry (`ITag`).  The `id` field is `some n`
exactly when the JSON value satisfies `typeof id === 'number'`. -/
structure TagEntryData where
  id : Option Int
deriving Repr, DecidableEq

/-- An element of the caller-supplied `tags` array: `none` models a
falsy (missing/null) entry. -/
abbrev TagEntry := Option TagEntryData

/-- A stored playground record.  `tags` is the set of associated tag
ids (the many-to-many association rows for this record). -/
structure Playground where
  id : Nat
  slug : String
  name : String
  description : String
  contents : String
  author : String
  pixiVersion : String
  isPublic : Bool
  versionsCount : Nat
  externalJs : List String
  tags : List Int
deriving Repr, DecidableEq

/-- The relational store: the playground table with its tag
associations. -/
structure Store where
  records : List Playground
deriving Repr, DecidableEq

/-- `Playground.findById(id)`: first record with the given primary
key. -/
def Store.findById (s : Store) (i : Nat) : Option Playground :=
  s.records.find? (fun q => q.id == i)

/-- The row update performed by `value.update(...)`: the record with
the same id is replaced by the updated record. -/
def Store.updateRecord (s : Store) (p : Playground) : Store :=
  ⟨s.records.map (fun q => if q.id == p.id then p else q)⟩

/-- `value.$set('tags', tags)` — Modelled from the spec: the body of the
persistence engine's association setter is not part of the sources; per
the spec it attaches "exactly this set" as a full replacement of prior
associations. -/
def Store.setTags (s : Store) (i : Nat) (ts : List Int) : Store :=
  ⟨s.records.map (fun q => if q.id == i then { q with tags := ts } else q)⟩

/-- Row insertion performed by `Playground.create`. -/
def Store.insert (s : Store) (p : Playground) : Store :=
  ⟨s.records ++ [p]⟩

/-- Response kinds sent by the handlers, with their HTTP status. -/
inductive RKind where
  | ok
  | created
  | notFound
  | invalidInput
  | internal
deriving Repr, DecidableEq

/-- HTTP status code of a response kind. -/
def RKind.code : RKind → Nat
  | .ok => 200
  | .created => 201
  | .notFound => 404
  | .invalidInput => 422
  | .internal => 500

/-- Trace of the externally visible actions of a handler, in program
order. -/
inductive Event where
  | txBegin
  | txCommit
  | lookupById (i : Nat)
  | searchQuery (q : String)
  | createRec (i : Nat)
  | updateRec (i : Nat)
  | setTagsEv (i : Nat) (ts : List Int)
  | purge (urls : List String)
  | getPlaygroundCall (i : String) (version : String)
deriving Repr, DecidableEq

/-- Handler state threaded through a request: the first-write-wins
response cell (status and, when a record is sent, its payload), the
store, and the event trace. -/
structure RState where
  response : Option (RKind × Option Playground)
  store : Store
  events : List Event
deriving Repr, DecidableEq

/-- `res.json(status, body)`: the first send fixes the status line the
caller receives; later sends on the same response do not reach the
caller. -/
def respond (st : RState) (r : RKind) (p : Option Playground) : RState :=
  match st.response with
  | some _ => st
  | none => { st with response := some (r, p) }

/-- Append an event to the trace. -/
def emit (st : RState) (e : Event) : RState :=
  { st with events := st.events ++ [e] }

/-- Status the caller receives (every handler path sends at least
once; `.internal` is the fallback for the impossible unsent case). -/
def RState.status (st : RState) : RKind :=
  match st.response with
  | some (r, _) => r
  | none => .internal

/-- Payload of the response the caller receives. -/
def RState.payload (st : RState) : Option Playground :=
  match st.response with
  | some (_, p) => p
  | none => none

/-- `prepareTags`: the loop of `function prepareTags(log, tagsData)` —
pushes `new Tag({id})` for each entry that is truthy and has a numeric
id, and skips (with a log line) every other entry. -/
def prepareTags : List TagEntry → List Tag
  | [] => []
  | some d :: rest =>
    match d.id with
    | some n => ⟨n⟩ :: prepareTags rest
    | none => prepareTags rest
  | none :: rest => prepareTags rest

/-- The four cache URLs the PUT handler purges for a slug. -/
def purgeUrls (slug : String) : List String :=
  [ "https://pixiplayground.com/api/playground/" ++ slug
  , "https://www.pixiplayground.com/api/playground/" ++ slug
  , "http://pixiplayground.com/api/playground/" ++ slug
  , "http://www.pixiplayground.com/api/playground/" ++ slug ]

/-- Request body of `PUT /api/playground/:slug` (absent `tags` /
`externalJs` arrive as `[]` via `req.body.tags || []`). -/
structure PutBody where
  id : Nat
  name : String
  description : String
  contents : String
  author : String
  pixiVersion : String
  isPublic : Bool
  tags : List TagEntry
  externalJs : List String
deriving Repr, DecidableEq

/-- The record produced by `value.update({...})` in the PUT handler:
the listed body fields are applied and `versionsCount` is incremented;
`id`, `slug` and the tag associations are untouched. -/
def updatedOf (value : Playground) (body : PutBody) : Playground :=
  { value with
      name := body.name
      description := body.description
      contents := body.contents
      author := body.author
      pixiVersion := body.pixiVersion
      isPublic := body.isPublic
      externalJs := body.externalJs
      versionsCount := value.versionsCount + 1 }

/-- The PUT handler's validation predicate
(`!slug || !contents || slug.length !== 21 || contents.length > 16777214`). -/
def putInvalid (slug : String) (body : PutBody) : Prop :=
  slug = "" ∨ body.contents = "" ∨ slug.length ≠ 21 ∨ body.contents.length > 16777214

instance (slug : String) (body : PutBody) : Decidable (putInvalid slug body) := by
  unfold putInvalid; infer_instance

/-- `PUT /api/playground/:slug`.  After validation the work happens in
`db.transaction`: look up by the body's `id`; on absence send 404;
otherwise apply the row update, then either send 500 on slug mismatch
or replace the tag set when a non-empty tag list was supplied; in every
found case the final `.then` purges the cache URLs and sends 200
(suppressed by first-write-wins on the mismatch path). -/
def putPlayground (store : Store) (slug : String) (body : PutBody) : RState :=
  let st0 : RState := { response := none, store := store, events := [] }
  if putInvalid slug body then
    respond st0 .invalidInput none
  else
    let st1 := emit (emit st0 .txBegin) (.lookupById body.id)
    match store.findById body.id with
    | none => respond (emit st1 .txCommit) .notFound none
    | some value =>
      let updated := updatedOf value body
      let st2 := emit { st1 with store := st1.store.updateRecord updated } (.updateRec value.id)
      let st3 :=
        if updated.slug ≠ slug then
          respond st2 .internal none
        else if body.tags ≠ [] then
          let ts := (prepareTags body.tags).map Tag.id
          emit { st2 with store := st2.store.setTags value.id ts } (.setTagsEv value.id ts)
        else
          st2
      let st4 := emit st3 (.purge (purgeUrls slug))
      respond (emit st4 .txCommit) .ok (some updated)

/-- Request body of `POST /api/playground`. -/
structure PostBody where
  name : String
  description : String
  contents : String
  author : String
  pixiVersion : String
  isPublic : Bool
  tags : List TagEntry
  externalJs : List String
deriving Repr, DecidableEq

/-- The POST handler's validation predicate
(`!contents || contents.length > 16777214`). -/
def postInvalid (body : PostBody) : Prop :=
  body.contents = "" ∨ body.contents.length > 16777214

instance (body : PostBody) : Decidable (postInvalid body) := by
  unfold postInvalid; infer_instance

/-- The record built by `Playground.create` — Modelled from the spec:
the `Playground` model definition is not part of the sources; per the
spec, `create` assigns a new id and a freshly generated slug and
initializes `versionsCount` to 0.  `newId` and `newSlug` stand for the
generated values. -/
def createdOf (newId : Nat) (newSlug : String) (body : PostBody) : Playground :=
  { id := newId
    slug := newSlug
    name := body.name
    description := body.description
    contents := body.contents
    author := body.author
    pixiVersion := body.pixiVersion
    isPublic := body.isPublic
    versionsCount := 0
    externalJs := body.externalJs
    tags := [] }

/-- `POST /api/playground`: validate `contents`, then inside
`db.transaction` create the record, replace its tag set when a
non-empty tag list was supplied, and send 201 with the record. -/
def postPlayground (store : Store) (body : PostBody) (newId : Nat) (newSlug : String) :
    RState :=
  let st0 : RState := { response := none, store := store, events := [] }
  if postInvalid body then
    respond st0 .invalidInput none
  else
    let value := createdOf newId newSlug body
    let st1 := emit { (emit st0 .txBegin) with store := store.insert value } (.createRec newId)
    let st2 :=
      if body.tags ≠ [] then
        let ts := (prepareTags body.tags).map Tag.id
        emit { st1 with store := st1.store.setTags newId ts } (.setTagsEv newId ts)
      else
        st1
    respond (emit st2 .txCommit) .created (some value)

/-- `GET /api/playgrounds`: reject an absent or empty `q` with 422
before touching the store; otherwise run the search (whose matching is
delegated to the store, here a parameter) and send 404 on an empty
result, 200 otherwise. -/
def getPlaygrounds (q : Option String) (searchResults : String → List Playground) : RState :=
  let st0 : RState := { response := none, store := ⟨[]⟩, events := [] }
  match q with
  | none => respond st0 .invalidInput none
  | some qs =>
    if qs = "" then
      respond st0 .invalidInput none
    else
      let values := searchResults qs
      let st1 := emit st0 (.searchQuery qs)
      if values = [] then
        respond st1 .notFound none
      else
        respond st1 .ok none

/-- JavaScript `parseInt(s, 10)`: skip leading whitespace, take an
optional sign and then the longest digit prefix; `NaN` (here `none`)
when no digit is found. -/
def parseInt10 (s : String) : Option Int :=
  let cs := s.toList.dropWhile (fun c => c = ' ' ∨ c = '\t' ∨ c = '\n' ∨ c = '\r')
  let signAndRest : Int × List Char :=
    match cs with
    | '-' :: r => (-1, r)
    | '+' :: r => (1, r)
    | r => (1, r)
  let ds := signAndRest.2.takeWhile Char.isDigit
  if ds = [] then none
  else some (signAndRest.1 * (ds.foldl (fun a c => a * 10 + (c.toNat - 48)) 0 : Nat))

/-- Result of the legacy `data.getPlayground` callback: `.error` for a
store error, `.ok none` when no item exists, `.ok (some _)` for a found
snapshot (the item content itself is irrelevant to the claims). -/
abbrev LegacyLookup := Except Unit (Option Unit)

/-- Legacy `GET /api/:id/:version`: 422 before any persistence call
when `parseInt(version, 10)` is `NaN`; otherwise
`data.getPlayground(id, version)` is invoked with the raw path
parameters, and its callback maps error/absent/found to 500/404/200. -/
def getByIdVersion (i : String) (version : String) (lookup : LegacyLookup) : RState :=
  let st0 : RState := { response := none, store := ⟨[]⟩, events := [] }
  match parseInt10 version with
  | none => respond st0 .invalidInput none
  | some _ =>
    let st1 := emit st0 (.getPlaygroundCall i version)
    match lookup with
    | .error _ => respond st1 .internal none
    | .ok none => respond st1 .notFound none
    | .ok (some _) => respond st1 .ok none

/-- Recognizer for lookup events. -/
def Event.isLookup : Event → Bool
  | .lookupById _ => true
  | _ => false

/-- Recognizer for cache-purge events. -/
def Event.isPurge : Event → Bool
  | .purge _ => true
  | _ => false

/-! ## Concrete fixtures for witnesses and counterexamples -/

/-- A 21-character slug. -/
def slugA : String := String.mk (List.replicate 21 'A')

/-- A different 21-character slug. -/
def slugB : String := String.mk (List.replicate 21 'B')

/-- A stored record with slug `slugA` and one tag association. -/
def pgA : Playground :=
  { id := 1, slug := slugA, name := "n", description := "", contents := "c"
    author := "a", pixiVersion := "5", isPublic := true, versionsCount := 0
    externalJs := [], tags := [7] }

/-- A one-record store. -/
def store1 : Store := ⟨[pgA]⟩

/-- A valid PUT body targeting id 1 with no tags supplied. -/
def bodyB : PutBody :=
  { id := 1, name := "n2", description := "d", contents := "x", author := "a2"
    pixiVersion := "5", isPublic := true, tags := [], externalJs := [] }

/-- A valid PUT body supplying two well-formed tag entries and one
malformed (non-numeric id) entry. -/
def bodyT : PutBody :=
  { id := 1, name := "n2", description := "d", contents := "x", author := "a2"
    pixiVersion := "5", isPublic := true
    tags := [some ⟨some 3⟩, some ⟨none⟩, some ⟨some 4⟩], externalJs := [] }

/-- A valid POST body with no tags supplied. -/
def postBody0 : PostBody :=
  { name := "n", description := "", contents := "c", author := "a"
    pixiVersion := "5", isPublic := true, tags := [], externalJs := [] }

/-- A valid POST body supplying two well-formed tag entries and one
malformed (non-numeric id) entry. -/
def postBodyT : PostBody :=
  { postBody0 with tags := [some ⟨some 3⟩, some ⟨none⟩, some ⟨some 4⟩] }

/-- Contents exactly at the accepted size bound. -/
def bigA : String := String.mk (List.replicate 16777214 'a')

/-- Contents one byte over the size bound. -/
def bigB : String := String.mk (List.replicate 16777215 'a')

/-- A POST body whose contents sit exactly at the bound. -/
def postBig : PostBody := { postBody0 with contents := bigA }

/-- A POST body whose contents exceed the bound by one. -/
def postBig1 : PostBody := { postBody0 with contents := bigB }

/-- A search-result function returning no rows for every query. -/
def emptySearch : String → List Playground := fun _ => []

/-! ## Case-analysis lemmas for the handlers -/

/-- A failed PUT validation short-circuits: 422, untouched store, no
events. -/
lemma putPlayground_invalid (store : Store) (slug : String) (body : PutBody)
    (h : putInvalid slug body) :
    putPlayground store slug body =
      { response := some (.invalidInput, none), store := store, events := [] } := by
  simp [putPlayground, h, respond]

/-- PUT with a valid request but an unknown id: 404 inside the
transaction, store untouched. -/
lemma putPlayground_notFound (store : Store) (slug : String) (body : PutBody)
    (h : ¬ putInvalid slug body) (hf : store.findById body.id = none) :
    putPlayground store slug body =
      { response := some (.notFound, none), store := store,
        events := [.txBegin, .lookupById body.id, .txCommit] } := by
  simp [putPlayground, h, hf, respond, emit]

/-- PUT reaching the slug-mismatch branch: the row update has been
applied, the purge still fires, the first send (500) wins. -/
lemma putPlayground_mismatch (store : Store) (slug : String) (body : PutBody)
    (p : Playground) (h : ¬ putInvalid slug body)
    (hf : store.findById body.id = some p) (hs : (updatedOf p body).slug ≠ slug) :
    putPlayground store slug body =
      { response := some (.internal, none)
        store := store.updateRecord (updatedOf p body)
        events := [.txBegin, .lookupById body.id, .updateRec p.id,
                   .purge (purgeUrls slug), .txCommit] } := by
  simp [putPlayground, h, hf, hs, respond, emit]

/-- PUT success with a non-empty tag list: row update then tag-set
replacement, purge, 200 with the updated record. -/
lemma putPlayground_ok_tags (store : Store) (slug : String) (body : PutBody)
    (p : Playground) (h : ¬ putInvalid slug body)
    (hf : store.findById body.id = some p) (hs : (updatedOf p body).slug = slug)
    (ht : body.tags ≠ []) :
    putPlayground store slug body =
      { response := some (.ok, some (updatedOf p body))
        store := (store.updateRecord (updatedOf p body)).setTags p.id
                   ((prepareTags body.tags).map Tag.id)
        events := [.txBegin, .lookupById body.id, .updateRec p.id,
                   .setTagsEv p.id ((prepareTags body.tags).map Tag.id),
                   .purge (purgeUrls slug), .txCommit] } := by
  simp [putPlayground, h, hf, hs, ht, respond, emit]

/-- PUT success with an empty tag list: the `$set` step is skipped. -/
lemma putPlayground_ok_notags (store : Store) (slug : String) (body : PutBody)
    (p : Playground) (h : ¬ putInvalid slug body)
    (hf : store.findById body.id = some p) (hs : (updatedOf p body).slug = slug)
    (ht : body.tags = []) :
    putPlayground store slug body =
      { response := some (.ok, some (updatedOf p body))
        store := store.updateRecord (updatedOf p body)
        events := [.txBegin, .lookupById body.id, .updateRec p.id,
                   .purge (purgeUrls slug), .txCommit] } := by
  simp [putPlayground, h, hf, hs, ht, respond, emit]

/-- A failed POST validation short-circuits. -/
lemma postPlayground_invalid (store : Store) (body : PostBody) (newId : Nat)
    (newSlug : String) (h : postInvalid body) :
    postPlayground store body newId newSlug =
      { response := some (.invalidInput, none), store := store, events := [] } := by
  simp [postPlayground, h, respond]

/-- POST success with a non-empty tag list. -/
lemma postPlayground_ok_tags (store : Store) (body : PostBody) (newId : Nat)
    (newSlug : String) (h : ¬ postInvalid body) (ht : body.tags ≠ []) :
    postPlayground store body newId newSlug =
      { response := some (.created, some (createdOf newId newSlug body))
        store := (store.insert (createdOf newId newSlug body)).setTags newId
                   ((prepareTags body.tags).map Tag.id)
        events := [.txBegin, .createRec newId,
                   .setTagsEv newId ((prepareTags body.tags).map Tag.id), .txCommit] } := by
  simp [postPlayground, h, ht, respond, emit]

/-- POST success with an empty tag list. -/
lemma postPlayground_ok_notags (store : Store) (body : PostBody) (newId : Nat)
    (newSlug : String) (h : ¬ postInvalid body) (ht : body.tags = []) :
    postPlayground store body newId newSlug =
      { response := some (.created, some (createdOf newId newSlug body))
        store := store.insert (createdOf newId newSlug body)
        events := [.txBegin, .createRec newId, .txCommit] } := by
  simp [postPlayground, h, ht, respond, emit]

/-! ## Store-lookup lemmas -/

/-- A record returned by `find?` on the id predicate carries that id. -/
lemma find?_id_eq {l : List Playground} {i : Nat} {p : Playground}
    (hf : l.find? (fun q => q.id == i) = some p) : p.id = i := by
  have h := List.find?_some hf
  simpa using h

/-- Replacing the record that holds the looked-up id makes the
replacement the lookup result. -/
lemma find?_map_update {i : Nat} {u : Playground} (hu : u.id = i) :
    ∀ {l : List Playground} {p : Playground},
      l.find? (fun q => q.id == i) = some p →
      (l.map (fun q => if q.id == u.id then u else q)).find? (fun q => q.id == i) = some u := by
  subst hu
  intro l
  induction l with
  | nil => intro p hf; simp at hf
  | cons a t ih =>
    intro p hf
    by_cases h : a.id = u.id
    · have hb : (a.id == u.id) = true := by simpa using h
      simp [List.map_cons, List.find?_cons, hb, h]
    · have hb : (a.id == u.id) = false := by simpa using h
      simp only [List.find?_cons, hb] at hf
      simp only [List.map_cons, List.find?_cons, hb, Bool.false_eq_true, if_false]
      exact ih hf

/-- `updateRecord` with a record carrying the same id changes exactly
the lookup result. -/
lemma Store.findById_updateRecord {s : Store} {i : Nat} {p u : Playground}
    (hf : s.findById i = some p) (hu : u.id = p.id) :
    (s.updateRecord u).findById i = some u := by
  have hp : p.id = i := find?_id_eq hf
  exact find?_map_update (hu.trans hp) hf

/-- `setTags` rewrites exactly the tag list of the looked-up record. -/
lemma find?_map_setTags {i : Nat} {ts : List Int} :
    ∀ {l : List Playground} {p : Playground},
      l.find? (fun q => q.id == i) = some p →
      (l.map (fun q => if q.id == i then { q with tags := ts } else q)).find?
          (fun q => q.id == i) = some { p with tags := ts } := by
  intro l
  induction l with
  | nil => intro p hf; simp at hf
  | cons a t ih =>
    intro p hf
    by_cases h : a.id = i
    · have hb : (a.id == i) = true := by simpa using h
      simp only [List.find?_cons, hb] at hf
      obtain rfl : a = p := by simpa using hf
      simp [List.map_cons, List.find?_cons, hb, h]
    · have hb : (a.id == i) = false := by simpa using h
      simp only [List.find?_cons, hb] at hf
      simp only [List.map_cons, List.find?_cons, hb, Bool.false_eq_true, if_false]
      exact ih hf

/-- Store-level version of `find?_map_setTags`. -/
lemma Store.findById_setTags {s : Store} {i : Nat} {ts : List Int} {p : Playground}
    (hf : s.findById i = some p) :
    (s.setTags i ts).findById i = some { p with tags := ts } :=
  find?_map_setTags hf

/-- Inserting a record with a fresh id makes it the lookup result for
that id. -/
lemma Store.findById_insert {s : Store} {p : Playground}
    (hf : s.findById p.id = none) :
    (s.insert p).findById p.id = some p := by
  obtain ⟨l⟩ := s
  simp only [Store.findById, Store.insert] at *
  induction l with
  | nil => simp
  | cons a t ih =>
    by_cases h : a.id = p.id
    · have hb : (a.id == p.id) = true := by simpa using h
      simp only [List.find?_cons, hb] at hf
      exact absurd hf (by simp)
    · have hb : (a.id == p.id) = false := by simpa using h
      simp only [List.find?_cons, hb] at hf
      simp only [List.cons_append, List.find?_cons, hb, Bool.false_eq_true, if_false]
      exact ih hf

/-- `prepareTags` builds exactly the well-formed subset of the
supplied entries, in order. -/
lemma prepareTags_filterMap (l : List TagEntry) :
    prepareTags l = (l.filterMap (fun e => e.bind TagEntryData.id)).map Tag.mk := by
  induction l with
  | nil => rfl
  | cons e t ih =>
    cases e with
    | none => simpa [prepareTags] using ih
    | some d =>
      cases hd : d.id with
      | none => simpa [prepareTags, hd] using ih
      | some n => simpa [prepareTags, hd] using ih

/-- The slug of `bigA`-sized strings built by `List.replicate` has the
stated length. -/
lemma length_mk_replicate (n : Nat) (c : Char) :
    (String.mk (List.replicate n c)).length = n := by
  simp [String.length]

/-! ## Claim theorems -/

/-- C1: for every PUT `/api/playground/:slug` request that passes
validation and finds the record by id, if after applying the update the
stored record's slug does not equal the slug supplied in the URL, the
operation reports INTERNAL (HTTP 500) and the caller does not receive a
200 response. -/
theorem put_slug_mismatch_reports_internal
    (store : Store) (slug : String) (body : PutBody) (p : Playground)
    (hv : ¬ putInvalid slug body)
    (hf : store.findById body.id = some p)
    (hs : (updatedOf p body).slug ≠ slug) :
    (putPlayground store slug body).status = .internal ∧
    ((putPlayground store slug body).status).code = 500 ∧
    (putPlayground store slug body).status ≠ .ok := by
  rw [putPlayground_mismatch store slug body p hv hf hs]
  exact ⟨rfl, rfl, by simp [RState.status]⟩

/-- Witness for C1: a concrete mismatched PUT yields 500, not 200. -/
theorem put_slug_mismatch_reports_internal_witness :
    (putPlayground store1 slugB bodyB).status = .internal ∧
    ((putPlayground store1 slugB bodyB).status).code = 500 ∧
    (putPlayground store1 slugB bodyB).status ≠ .ok :=
  put_slug_mismatch_reports_internal store1 slugB bodyB pgA
    (by decide) (by decide) (by decide)

/-- C2 counterexample: on the slug-mismatch error path the record
update is committed — the stored state differs from the pre-request
state even though INTERNAL is reported, refuting "on the error path the
stored state is unchanged". -/
theorem put_mismatch_partial_commit_counterexample :
    (putPlayground store1 slugB bodyB).status = .internal ∧
    (putPlayground store1 slugB bodyB).store ≠ store1 ∧
    (putPlayground store1 slugB bodyB).store.findById 1 = some (updatedOf pgA bodyB) := by
  decide

/-- C2 (amended): on the validation-failure and id-not-found paths the
stored state is unchanged, and on the success path the record change
and the tag-association change are committed together; but on the
slug-mismatch path the record update commits (and the tag associations
are untouched) even though INTERNAL is reported. -/
theorem put_update_commit_scope
    (store : Store) (slug : String) (body : PutBody) :
    (putInvalid slug body → (putPlayground store slug body).store = store) ∧
    (¬ putInvalid slug body → store.findById body.id = none →
      (putPlayground store slug body).store = store) ∧
    (∀ p, ¬ putInvalid slug body → store.findById body.id = some p →
      (updatedOf p body).slug ≠ slug →
      (putPlayground store slug body).status = .internal ∧
      (putPlayground store slug body).store = store.updateRecord (updatedOf p body)) ∧
    (∀ p, ¬ putInvalid slug body → store.findById body.id = some p →
      (updatedOf p body).slug = slug → body.tags ≠ [] →
      (putPlayground store slug body).status = .ok ∧
      (putPlayground store slug body).store =
        (store.updateRecord (updatedOf p body)).setTags p.id
          ((prepareTags body.tags).map Tag.id)) := by
  refine ⟨?_, ?_, ?_, ?_⟩
  · intro h
    rw [putPlayground_invalid store slug body h]
  · intro h hf
    rw [putPlayground_notFound store slug body h hf]
  · intro p h hf hs
    rw [putPlayground_mismatch store slug body p h hf hs]
    exact ⟨rfl, rfl⟩
  · intro p h hf hs ht
    rw [putPlayground_ok_tags store slug body p h hf hs ht]
    exact ⟨rfl, rfl⟩

/-- Witness for C2 (amended): the concrete mismatched PUT commits
exactly the record update. -/
theorem put_update_commit_scope_witness :
    (putPlayground store1 slugB bodyB).status = .internal ∧
    (putPlayground store1 slugB bodyB).store = store1.updateRecord (updatedOf pgA bodyB) :=
  (put_update_commit_scope store1 slugB bodyB).2.2.1 pgA (by decide) (by decide) (by decide)

/-- C3: every valid creation returns a record with `versionsCount = 0`,
and every successful update stores the prior value plus one. -/
theorem versionsCount_create_zero_update_increment
    (store : Store) (body : PostBody) (newId : Nat) (newSlug : String)
    (slug : String) (pbody : PutBody) (p : Playground)
    (hpost : ¬ postInvalid body)
    (hput : ¬ putInvalid slug pbody)
    (hf : store.findById pbody.id = some p) :
    ((postPlayground store body newId newSlug).payload = some (createdOf newId newSlug body) ∧
      (createdOf newId newSlug body).versionsCount = 0) ∧
    ((putPlayground store slug pbody).store.findById pbody.id).map Playground.versionsCount =
      some (p.versionsCount + 1) := by
  have hid : (updatedOf p pbody).id = p.id := rfl
  constructor
  · refine ⟨?_, rfl⟩
    by_cases ht : body.tags = []
    · rw [postPlayground_ok_notags store body newId newSlug hpost ht]; rfl
    · rw [postPlayground_ok_tags store body newId newSlug hpost ht]; rfl
  · by_cases hs : (updatedOf p pbody).slug = slug
    · by_cases ht : pbody.tags = []
      · rw [putPlayground_ok_notags store slug pbody p hput hf hs ht]
        show ((store.updateRecord (updatedOf p pbody)).findById pbody.id).map
            Playground.versionsCount = some (p.versionsCount + 1)
        rw [Store.findById_updateRecord hf hid]
        rfl
      · have h1 : (store.updateRecord (updatedOf p pbody)).findById pbody.id =
            some (updatedOf p pbody) := Store.findById_updateRecord hf hid
        have hp : p.id = pbody.id := find?_id_eq hf
        rw [putPlayground_ok_tags store slug pbody p hput hf hs ht]
        show (((store.updateRecord (updatedOf p pbody)).setTags p.id
            ((prepareTags pbody.tags).map Tag.id)).findById pbody.id).map
            Playground.versionsCount = some (p.versionsCount + 1)
        rw [hp, Store.findById_setTags h1]
        rfl
    · rw [putPlayground_mismatch store slug pbody p hput hf hs]
      show ((store.updateRecord (updatedOf p pbody)).findById pbody.id).map
          Playground.versionsCount = some (p.versionsCount + 1)
      rw [Store.findById_updateRecord hf hid]
      rfl

/-- Witness for C3: a concrete valid creation and a concrete
successful update of `pgA`. -/
theorem versionsCount_create_zero_update_increment_witness :
    ((postPlayground store1 postBody0 2 slugB).payload = some (createdOf 2 slugB postBody0) ∧
      (createdOf 2 slugB postBody0).versionsCount = 0) ∧
    ((putPlayground store1 slugA bodyB).store.findById 1).map Playground.versionsCount =
      some (pgA.versionsCount + 1) :=
  versionsCount_create_zero_update_increment store1 postBody0 2 slugB slugA bodyB pgA
    (by decide) (by decide) (by decide)

/-- C4 counterexample: a PUT that supplies an empty tags list leaves
the previously attached tag in place (and succeeds with 200), refuting
"omitting a previously attached tag — including when the supplied list
is empty — removes it". -/
theorem put_empty_tags_keeps_associations_counterexample :
    bodyB.tags = [] ∧ pgA.tags = [7] ∧
    (putPlayground store1 slugA bodyB).status = .ok ∧
    ((putPlayground store1 slugA bodyB).store.findById 1).map Playground.tags = some [7] := by
  decide

/-- C4 (amended): when the supplied tags list is non-empty, the
resulting association set is exactly the well-formed subset of the
supplied list (full replacement); when the supplied list is empty, the
association-set step is skipped and prior associations remain. -/
theorem tags_full_replacement_when_nonempty
    (store : Store) (slug : String) (pbody : PutBody) (p : Playground)
    (body : PostBody) (newId : Nat) (newSlug : String)
    (hput : ¬ putInvalid slug pbody) (hf : store.findById pbody.id = some p)
    (hs : (updatedOf p pbody).slug = slug)
    (hpost : ¬ postInvalid body) (hfresh : store.findById newId = none) :
    (pbody.tags ≠ [] →
      ((putPlayground store slug pbody).store.findById pbody.id).map Playground.tags =
        some (pbody.tags.filterMap (fun e => e.bind TagEntryData.id))) ∧
    (pbody.tags = [] →
      ((putPlayground store slug pbody).store.findById pbody.id).map Playground.tags =
        some p.tags) ∧
    (body.tags ≠ [] →
      ((postPlayground store body newId newSlug).store.findById newId).map Playground.tags =
        some (body.tags.filterMap (fun e => e.bind TagEntryData.id))) ∧
    (body.tags = [] →
      ((postPlayground store body newId newSlug).store.findById newId).map Playground.tags =
        some []) := by
  have hid : (updatedOf p pbody).id = p.id := rfl
  have hp : p.id = pbody.id := find?_id_eq hf
  have h1 : (store.updateRecord (updatedOf p pbody)).findById pbody.id =
      some (updatedOf p pbody) := Store.findById_updateRecord hf hid
  have hfresh' : store.findById (createdOf newId newSlug body).id = none := hfresh
  have h2 : (store.insert (createdOf newId newSlug body)).findById newId =
      some (createdOf newId newSlug body) := Store.findById_insert hfresh'
  refine ⟨?_, ?_, ?_, ?_⟩
  · intro ht
    rw [putPlayground_ok_tags store slug pbody p hput hf hs ht]
    show (((store.updateRecord (updatedOf p pbody)).setTags p.id
        ((prepareTags pbody.tags).map Tag.id)).findById pbody.id).map Playground.tags =
        some (pbody.tags.filterMap (fun e => e.bind TagEntryData.id))
    rw [hp, Store.findById_setTags h1]
    simp [prepareTags_filterMap, List.map_map, show Tag.id ∘ Tag.mk = id from rfl]
  · intro ht
    rw [putPlayground_ok_notags store slug pbody p hput hf hs ht]
    show ((store.updateRecord (updatedOf p pbody)).findById pbody.id).map Playground.tags =
        some p.tags
    rw [Store.findById_updateRecord hf hid]
    rfl
  · intro ht
    rw [postPlayground_ok_tags store body newId newSlug hpost ht]
    show (((store.insert (createdOf newId newSlug body)).setTags newId
        ((prepareTags body.tags).map Tag.id)).findById newId).map Playground.tags =
        some (body.tags.filterMap (fun e => e.bind TagEntryData.id))
    rw [Store.findById_setTags h2]
    simp [prepareTags_filterMap, List.map_map, show Tag.id ∘ Tag.mk = id from rfl]
  · intro ht
    rw [postPlayground_ok_notags store body newId newSlug hpost ht]
    show ((store.insert (createdOf newId newSlug body)).findById newId).map Playground.tags =
        some []
    rw [h2]
    rfl

/-- Witness for C4 (amended): a concrete PUT with two well-formed tags
replaces the prior association set, and a concrete POST with an empty
list yields no associations. -/
theorem tags_full_replacement_when_nonempty_witness :
    ((putPlayground store1 slugA bodyT).store.findById 1).map Playground.tags =
      some [3, 4] ∧
    ((postPlayground store1 postBody0 2 slugB).store.findById 2).map Playground.tags =
      some [] := by
  have h := tags_full_replacement_when_nonempty store1 slugA bodyT pgA postBody0 2 slugB
    (by decide) (by decide) (by decide) (by decide) (by decide)
  exact ⟨by simpa using h.1 (by decide), by simpa using h.2.2.2 rfl⟩

/-- C5: contents of length exactly 16,777,214 passes validation (the
request is accepted), while contents of length 16,777,215 is rejected
with INVALID_INPUT before any persistence attempt, on both the create
and the update route. -/
theorem contents_length_boundary
    (store : Store) (body : PostBody) (newId : Nat) (newSlug : String)
    (slug : String) (pbody : PutBody) :
    (body.contents.length = 16777214 →
      (postPlayground store body newId newSlug).status = .created) ∧
    (body.contents.length = 16777215 →
      (postPlayground store body newId newSlug).status = .invalidInput ∧
      (postPlayground store body newId newSlug).store = store ∧
      (postPlayground store body newId newSlug).events = []) ∧
    (slug.length = 21 → pbody.contents.length = 16777214 →
      (putPlayground store slug pbody).status ≠ .invalidInput) ∧
    (pbody.contents.length = 16777215 →
      (putPlayground store slug pbody).status = .invalidInput ∧
      (putPlayground store slug pbody).store = store ∧
      (putPlayground store slug pbody).events = []) := by
  refine ⟨?_, ?_, ?_, ?_⟩
  · intro h
    have hne : body.contents ≠ "" := by
      intro he; rw [he] at h; exact absurd h (by decide)
    have hnv : ¬ postInvalid body := by
      rintro (he | hgt)
      · exact hne he
      · rw [h] at hgt; omega
    by_cases ht : body.tags = []
    · simp [postPlayground_ok_notags store body newId newSlug hnv ht, RState.status]
    · simp [postPlayground_ok_tags store body newId newSlug hnv ht, RState.status]
  · intro h
    have hv : postInvalid body := Or.inr (by rw [h]; omega)
    simp [postPlayground_invalid store body newId newSlug hv, RState.status]
  · intro hs21 h
    have hslug : slug ≠ "" := by
      intro he; rw [he] at hs21; exact absurd hs21 (by decide)
    have hne : pbody.contents ≠ "" := by
      intro he; rw [he] at h; exact absurd h (by decide)
    have hnv : ¬ putInvalid slug pbody := by
      rintro (h1 | h2 | h3 | h4)
      · exact hslug h1
      · exact hne h2
      · exact h3 hs21
      · rw [h] at h4; omega
    cases hfind : store.findById pbody.id with
    | none => simp [putPlayground_notFound store slug pbody hnv hfind, RState.status]
    | some p =>
      by_cases hsl : (updatedOf p pbody).slug = slug
      · by_cases ht : pbody.tags = []
        · simp [putPlayground_ok_notags store slug pbody p hnv hfind hsl ht, RState.status]
        · simp [putPlayground_ok_tags store slug pbody p hnv hfind hsl ht, RState.status]
      · simp [putPlayground_mismatch store slug pbody p hnv hfind hsl, RState.status]
  · intro h
    have hv : putInvalid slug pbody := Or.inr (Or.inr (Or.inr (by rw [h]; omega)))
    simp [putPlayground_invalid store slug pbody hv, RState.status]

/-- Witness for C5: a 16,777,214-character contents is accepted, a
16,777,215-character contents is rejected. -/
theorem contents_length_boundary_witness :
    (postPlayground ⟨[]⟩ postBig 1 slugA).status = .created ∧
    (postPlayground ⟨[]⟩ postBig1 1 slugA).status = .invalidInput := by
  constructor
  · exact (contents_length_boundary ⟨[]⟩ postBig 1 slugA slugA bodyB).1
      (length_mk_replicate 16777214 'a')
  · exact ((contents_length_boundary ⟨[]⟩ postBig1 1 slugA slugA bodyB).2.1
      (length_mk_replicate 16777215 'a')).1

/-- C6: `prepareTags` keeps exactly the well-formed entries (truthy
entry with numeric id) in order, never failing on malformed ones; a
list of 2 well-formed and 1 malformed entry yields exactly the 2
corresponding associations. -/
theorem prepareTags_drops_malformed :
    (∀ l : List TagEntry,
      prepareTags l = (l.filterMap (fun e => e.bind TagEntryData.id)).map Tag.mk) ∧
    prepareTags [some ⟨some 3⟩, some ⟨none⟩, some ⟨some 4⟩] = [⟨3⟩, ⟨4⟩] ∧
    ((postPlayground ⟨[]⟩ postBodyT 9 slugA).store.findById 9).map Playground.tags =
      some [3, 4] :=
  ⟨prepareTags_filterMap, by decide, by decide⟩

/-- C7: GET `/api/playgrounds` rejects an absent or empty `q` with 422
and runs no store query; a non-empty `q` whose search returns zero rows
yields 404, not an empty 200. -/
theorem getPlaygrounds_query_gate (q : Option String) (f : String → List Playground) :
    ((q = none ∨ q = some "") →
      (getPlaygrounds q f).status = .invalidInput ∧ (getPlaygrounds q f).events = []) ∧
    (∀ s, q = some s → s ≠ "" → f s = [] →
      (getPlaygrounds q f).status = .notFound ∧ (getPlaygrounds q f).status ≠ .ok) := by
  constructor
  · rintro (rfl | rfl) <;> simp [getPlaygrounds, respond, RState.status]
  · rintro s rfl hs hf
    simp [getPlaygrounds, hs, hf, respond, emit, RState.status]

/-- Witness for C7: an empty query is rejected without a search event;
a query with an empty result set yields 404. -/
theorem getPlaygrounds_query_gate_witness :
    ((getPlaygrounds (some "") emptySearch).status = .invalidInput ∧
      (getPlaygrounds (some "") emptySearch).events = []) ∧
    (getPlaygrounds (some "x") emptySearch).status = .notFound :=
  ⟨(getPlaygrounds_query_gate (some "") emptySearch).1 (Or.inr rfl),
    ((getPlaygrounds_query_gate (some "x") emptySearch).2 "x" rfl (by decide) rfl).1⟩

/-- C8: the legacy GET `/api/:id/:version` route answers 422 before any
persistence call exactly when `parseInt(version, 10)` is `NaN`; when
the version parses, `data.getPlayground` is invoked with the raw `id`
and `version` path parameters. -/
theorem legacy_version_parse_gate (i version : String) (lookup : LegacyLookup) :
    (((getByIdVersion i version lookup).status = .invalidInput ∧
        (getByIdVersion i version lookup).events = []) ↔ parseInt10 version = none) ∧
    (parseInt10 version ≠ none →
      (getByIdVersion i version lookup).events = [.getPlaygroundCall i version]) := by
  cases hp : parseInt10 version with
  | none =>
    refine ⟨?_, fun h => absurd rfl h⟩
    simp [getByIdVersion, hp, respond, RState.status]
  | some n =>
    constructor
    · constructor
      · rintro ⟨h1, h2⟩
        cases lookup with
        | error e => simp [getByIdVersion, hp, respond, emit, RState.status] at h1
        | ok o =>
          cases o with
          | none => simp [getByIdVersion, hp, respond, emit, RState.status] at h1
          | some u => simp [getByIdVersion, hp, respond, emit, RState.status] at h1
      · intro h
        exact absurd h (by simp)
    · intro _
      cases lookup with
      | error e => simp [getByIdVersion, hp, respond, emit]
      | ok o => cases o <;> simp [getByIdVersion, hp, respond, emit]

/-- Witness for C8: a non-numeric version is rejected; a numeric
version reaches `getPlayground` with the raw parameters. -/
theorem legacy_version_parse_gate_witness :
    ((getByIdVersion "7" "x" (.ok none)).status = .invalidInput ∧
      (getByIdVersion "7" "x" (.ok none)).events = []) ∧
    (getByIdVersion "7" "3" (.ok none)).events = [.getPlaygroundCall "7" "3"] :=
  ⟨(legacy_version_parse_gate "7" "x" (.ok none)).1.mpr (by decide),
    (legacy_version_parse_gate "7" "3" (.ok none)).2 (by decide)⟩

/-- C9: for every PUT request that passes validation, the only store
lookup performed is by the id field of the request body — never by the
slug path parameter — and the slug is only compared with the updated
record's slug, the comparison deciding the INTERNAL outcome. -/
theorem put_lookup_by_body_id_only
    (store : Store) (slug : String) (body : PutBody)
    (hv : ¬ putInvalid slug body) :
    (putPlayground store slug body).events.filter Event.isLookup =
      [.lookupById body.id] ∧
    (∀ p, store.findById body.id = some p →
      ((putPlayground store slug body).status = .internal ↔
        (updatedOf p body).slug ≠ slug)) := by
  constructor
  · cases hfind : store.findById body.id with
    | none =>
      rw [putPlayground_notFound store slug body hv hfind]
      rfl
    | some p =>
      by_cases hs : (updatedOf p body).slug = slug
      · by_cases ht : body.tags = []
        · rw [putPlayground_ok_notags store slug body p hv hfind hs ht]
          rfl
        · rw [putPlayground_ok_tags store slug body p hv hfind hs ht]
          rfl
      · rw [putPlayground_mismatch store slug body p hv hfind hs]
        rfl
  · intro p hp
    by_cases hs : (updatedOf p body).slug = slug
    · by_cases ht : body.tags = []
      · rw [putPlayground_ok_notags store slug body p hv hp hs ht]
        simp [RState.status, hs]
      · rw [putPlayground_ok_tags store slug body p hv hp hs ht]
        simp [RState.status, hs]
    · rw [putPlayground_mismatch store slug body p hv hp hs]
      simp [RState.status, hs]

/-- Witness for C9: the concrete mismatched PUT looks up only by the
body id, and its INTERNAL outcome coincides with the slug mismatch. -/
theorem put_lookup_by_body_id_only_witness :
    (putPlayground store1 slugB bodyB).events.filter Event.isLookup =
      [.lookupById bodyB.id] ∧
    ((putPlayground store1 slugB bodyB).status = .internal ↔
      (updatedOf pgA bodyB).slug ≠ slugB) :=
  ⟨(put_lookup_by_body_id_only store1 slugB bodyB (by decide)).1,
    (put_lookup_by_body_id_only store1 slugB bodyB (by decide)).2 pgA (by decide)⟩

/-- C10: the PUT handler purges exactly the four scheme × subdomain URL
variants of the slug whenever the record-update step resolves —
including on the slug-mismatch path — never on validation failure or on
an unknown id; the purge event sits inside the transaction callback
(after its first and before its last event). -/
theorem put_purge_on_update_resolution (store : Store) (slug : String) (body : PutBody) :
    (putInvalid slug body →
      (putPlayground store slug body).events.filter Event.isPurge = []) ∧
    (¬ putInvalid slug body → store.findById body.id = none →
      (putPlayground store slug body).events.filter Event.isPurge = []) ∧
    (∀ p, ¬ putInvalid slug body → store.findById body.id = some p →
      (putPlayground store slug body).events.filter Event.isPurge =
        [.purge (purgeUrls slug)] ∧
      (putPlayground store slug body).events.head? = some .txBegin ∧
      (putPlayground store slug body).events.getLast? = some .txCommit) := by
  refine ⟨?_, ?_, ?_⟩
  · intro h
    rw [putPlayground_invalid store slug body h]
    rfl
  · intro h hf
    rw [putPlayground_notFound store slug body h hf]
    rfl
  · intro p h hf
    by_cases hs : (updatedOf p body).slug = slug
    · by_cases ht : body.tags = []
      · rw [putPlayground_ok_notags store slug body p h hf hs ht]
        exact ⟨rfl, rfl, rfl⟩
      · rw [putPlayground_ok_tags store slug body p h hf hs ht]
        exact ⟨rfl, rfl, rfl⟩
    · rw [putPlayground_mismatch store slug body p h hf hs]
      exact ⟨rfl, rfl, rfl⟩

/-- Witness for C10: the concrete slug-mismatch PUT still purges the
four URL variants, inside the transaction events. -/
theorem put_purge_on_update_resolution_witness :
    (putPlayground store1 slugB bodyB).events.filter Event.isPurge =
      [.purge (purgeUrls slugB)] ∧
    (putPlayground store1 slugB bodyB).events.head? = some .txBegin ∧
    (putPlayground store1 slugB bodyB).events.getLast? = some .txCommit :=
  (put_purge_on_update_resolution store1 slugB bodyB).2.2 pgA (by decide) (by decide)
